import Mathlib

/-!
Verification development for the HR candidate-evaluation workflow
(`src/supervisor/...`): a shallow embedding of the data model, the five
step functions, the document-extraction tools, the supervisor router and
the graph loop, together with theorems settling the specification claims.

External collaborators (the language model, the filesystem, the web
loader, the JSON decoder, `urlparse`) are modelled as oracle parameters;
everything else is translated directly from the Python source.
-/

set_option autoImplicit false

namespace HR

/-- A chat message: `HumanMessage(content=..., name=...)`. -/
structure Message where
  name : String
  content : String
deriving Repr, DecidableEq

/-- A model reply object (`AIMessage`): `content` is the text field,
`extra` stands for the remaining fields; `render` is Python `str(...)`
of the whole object, which is not the bare content. -/
structure LlmMsg where
  content : String
  extra : String
deriving Repr, DecidableEq

/-- Python `str(msg)` of a model reply object: includes the field
wrapper around the content, so it differs from `content` itself. -/
def LlmMsg.render (m : LlmMsg) : String :=
  "content=" ++ m.content ++ " " ++ m.extra

/-- A value stored in an analysis dict: the agents store either the raw
model reply object or a plain string (sentinel / error text). -/
inductive Entry where
  | msg (m : LlmMsg)
  | str (s : String)
deriving Repr, DecidableEq

/-- f-string rendering of a stored entry (used when a prior analysis is
interpolated into a later prompt). -/
def Entry.render : Entry → String
  | .msg m => m.render
  | .str s => s

/-- A candidate input record; absent dict keys are `none`. -/
structure Candidate where
  id : Option String
  resume_path : Option String
  linkedin_url : Option String
  cover_letter_path : Option String
deriving Repr, DecidableEq

/-- `candidate.get("id", f"candidate_{idx}")`. -/
def candidateId (idx : Nat) (c : Candidate) : String :=
  c.id.getD ("candidate_" ++ toString idx)

/-- An analysis map, modelling a Python `dict[str, ...]` as an
association list with unique keys (insert overwrites in place). -/
abbrev AnalysisMap := List (String × Entry)

/-- Minimal JSON value tree (`json.loads` result / fallback value). -/
inductive Json where
  | null
  | bool (b : Bool)
  | num (n : Int)
  | str (s : String)
  | arr (xs : List Json)
  | obj (fields : List (String × Json))
deriving Repr

/-- Field lookup in a JSON object. -/
def Json.getField : Json → String → Option Json
  | .obj fields, k => fields.lookup k
  | _, _ => none

/-- The final-ranking record produced by the last step. -/
structure FinalRanking where
  detailed_report : String
  structured_output : Json
deriving Repr

/-- The shared evaluation state (`CandidateState` TypedDict). -/
structure CandidateState where
  messages : List Message
  job_offer : String
  candidates : List Candidate
  resume_analyses : AnalysisMap
  linkedin_analyses : AnalysisMap
  cover_letter_analyses : AnalysisMap
  job_matches : AnalysisMap
  final_ranking : Option FinalRanking
  next : String

/-! ## Association-list operations modelling Python `dict` -/

/-- `m[k]` lookup (first match; maps built by `dictInsert` have unique
keys). -/
def alookup : List (String × Entry) → String → Option Entry
  | [], _ => none
  | (k, v) :: rest, q => if q = k then some v else alookup rest q

/-- `m[k] = v`: overwrite in place if the key is present, else append
(Python dict assignment keeps the original key position). -/
def dictInsert : List (String × Entry) → String → Entry → List (String × Entry)
  | [], k, v => [(k, v)]
  | (k', v') :: rest, k, v =>
      if k' = k then (k', v) :: rest else (k', v') :: dictInsert rest k v

/-- `k in m`. -/
def hasKey : List (String × Entry) → String → Bool
  | [], _ => false
  | (k', _) :: rest, k => k' = k || hasKey rest k

theorem alookup_dictInsert (m : List (String × Entry)) (k q : String) (v : Entry) :
    alookup (dictInsert m k v) q = if q = k then some v else alookup m q := by
  induction m with
  | nil => simp [dictInsert, alookup]
  | cons hd tl ih =>
    obtain ⟨k', v'⟩ := hd
    simp only [dictInsert]
    by_cases hk : k' = k
    · subst hk
      by_cases hq : q = k' <;> simp [alookup, hq]
    · simp only [if_neg hk]
      by_cases hq : q = k'
      · have hqk : ¬ q = k := fun h => hk (hq.symm.trans h)
        simp [alookup, hq, hqk, hk]
      · simp [alookup, hq, ih]

theorem length_dictInsert (m : List (String × Entry)) (k : String) (v : Entry) :
    (dictInsert m k v).length = if hasKey m k then m.length else m.length + 1 := by
  induction m with
  | nil => simp [dictInsert, hasKey]
  | cons hd tl ih =>
    obtain ⟨k', v'⟩ := hd
    simp only [dictInsert]
    by_cases hk : k' = k
    · simp [hasKey, hk]
    · simp only [if_neg hk, List.length_cons, ih, hasKey]
      have hd : (decide (k' = k)) = false := by simp [hk]
      simp only [hd, Bool.false_or]
      split <;> simp

theorem hasKey_dictInsert (m : List (String × Entry)) (k k' : String) (v : Entry) :
    hasKey (dictInsert m k v) k' = (hasKey m k' || decide (k = k')) := by
  induction m with
  | nil => simp [dictInsert, hasKey, eq_comm]
  | cons hd tl ih =>
    obtain ⟨k₀, v₀⟩ := hd
    simp only [dictInsert]
    by_cases hk : k₀ = k
    · subst hk
      by_cases hq : k₀ = k' <;> simp [hasKey, hq]
    · simp only [if_neg hk, hasKey, ih, Bool.or_assoc]

/-! ## Tools: `parse_pdf` (src/supervisor/tools/pdf_parser.py) -/

/-- A PDF file as the reader sees it: the per-page results of
`page.extract_text()` — either extracted text or a page-level failure. -/
structure PdfFile where
  pages : List (Except String String)
deriving Repr

/-- The distinguished failure kinds `parse_pdf` can raise. -/
inductive PdfErr where
  | notFound (msg : String)
  | other (msg : String)
deriving Repr, DecidableEq

/-- Python `str(e)` of the raised exception. -/
def PdfErr.str : PdfErr → String
  | .notFound m => m
  | .other m => m

/-- Filesystem + reader oracle: `none` = path does not exist;
`some (.error e)` = `PdfReader` construction fails; `some (.ok f)` =
the opened file. -/
def FsOracle := String → Option (Except String PdfFile)

/-- Python `s.strip()` yields the empty string: every character of `s`
is whitespace (executable rendering of the blank test). -/
def isBlank (s : String) : Bool :=
  s.data.all Char.isWhitespace

/-- Python `s.strip()`: drop leading and trailing whitespace
(executable rendering over the character list). -/
def stripStr (s : String) : String :=
  ⟨((s.data.dropWhile Char.isWhitespace).reverse.dropWhile Char.isWhitespace).reverse⟩

/-- Python `s.startswith(pre)` (executable rendering over the character
list). -/
def startsWithStr (s pre : String) : Bool :=
  pre.data.isPrefixOf s.data

/-- The page loop of `parse_pdf`: keep each page's text when extraction
succeeds and the text has non-blank content (`if text.strip()`); skip
failing pages and all-blank pages. -/
def extractedPageTexts (pages : List (Except String String)) : List String :=
  pages.foldl
    (fun acc p =>
      match p with
      | .ok t => if isBlank t then acc else acc ++ [t]
      | .error _ => acc)
    []

/-- `parse_pdf(file_path)`: raise `FileNotFoundError` when the path does
not exist, wrap reader errors, otherwise join the per-page texts with
blank lines (an all-blank result collapses to `""`). -/
def parse_pdf (fs : FsOracle) (file_path : String) : Except PdfErr String :=
  match fs file_path with
  | none => .error (.notFound ("PDF file not found: " ++ file_path))
  | some (.error e) => .error (.other ("Error parsing PDF: " ++ e))
  | some (.ok f) => .ok (String.intercalate "\n\n" (extractedPageTexts f.pages))

/-- A page of `f.pages` failed extraction. -/
def hasFailingPage (f : PdfFile) : Bool :=
  f.pages.any (fun p => match p with | .error _ => true | .ok _ => false)

/-! ## Tools: `scrape_linkedin` (src/supervisor/tools/linkedin_scraper.py) -/

/-- The result of `urllib.parse.urlparse` restricted to the two
components the scraper inspects. -/
structure UrlParts where
  scheme : String
  netloc : String

/-- Oracle for `urlparse`. -/
def UrlOracle := String → UrlParts

/-- Oracle for `WebBaseLoader(...).load()` given the url and the
`SoupStrainer` class filter: the `page_content` of each loaded document,
or the exception message. -/
def WebOracle := String → List String → Except String (List String)

/-- The fixed `SoupStrainer` class filter passed to the loader. -/
def linkedinClasses : List String :=
  ["profile", "profile-section", "pv-top-card",
   "experience-section", "education-section", "skill-section"]

/-- `scrape_linkedin(url_or_text)`: pass plain text through unchanged,
fetch absolute URLs through the class-filtered loader, and turn any
exception into an error-marker string. -/
def scrape_linkedin (urlparse : UrlOracle) (web : WebOracle) (url_or_text : String) : String :=
  let parsed := urlparse url_or_text
  let is_url := parsed.scheme ≠ "" && parsed.netloc ≠ ""
  if !is_url then
    url_or_text
  else
    match web url_or_text linkedinClasses with
    | .error e => "Error accessing LinkedIn profile: " ++ e
    | .ok docs =>
      if docs.isEmpty then ""
      else String.intercalate "\n\n" docs

/-! ## Model client oracle and prompts -/

/-- Oracle for `llm.invoke`: the reply object, or the raised
exception's `str(e)`. -/
def LlmOracle := String → Except String LlmMsg

/-- The resume-analysis prompt (resume_analyzer.py). -/
def resumePrompt (resume_text : String) : String :=
  "Analyze the following resume and extract key information:\n\nResume Content:\n"
    ++ resume_text
    ++ "\n\nProvide a structured analysis including:\n1. Skills (technical and soft skills)\n2. Work Experience (positions, companies, duration, key achievements)\n3. Education (degrees, institutions, graduation dates)\n4. Certifications and additional qualifications\n5. Overall strengths and areas of expertise\n\nBe concise but thorough."

/-- The LinkedIn-analysis prompt (linkedin_analyzer.py). -/
def linkedinPrompt (linkedin_text : String) : String :=
  "Analyze the following LinkedIn profile and extract key insights:\n\nLinkedIn Profile:\n"
    ++ linkedin_text
    ++ "\n\nProvide a structured analysis including:\n1. Professional Summary and headline\n2. Career trajectory and progression\n3. Key skills and endorsements\n4. Notable accomplishments and projects\n5. Professional network indicators (if available)\n6. Recommendations and testimonials (if available)\n7. Overall professional brand and positioning\n\nBe concise but insightful."

/-- The cover-letter-analysis prompt (cover_letter_analyzer.py). -/
def coverLetterPrompt (cover_letter_text : String) : String :=
  "Analyze the following cover letter and extract key insights:\n\nCover Letter:\n"
    ++ cover_letter_text
    ++ "\n\nProvide a structured analysis including:\n1. Motivation for applying\n2. Understanding of the role and company\n3. Cultural fit indicators\n4. Communication style and professionalism\n5. Unique value propositions mentioned\n6. Passion and enthusiasm level\n7. Writing quality and clarity\n\nBe concise but insightful."

/-- The job-matching prompt (job_matcher.py). -/
def jobMatchPrompt (job_offer resume_analysis linkedin_analysis cover_letter_analysis : String) : String :=
  "Match the following candidate against the job offer requirements:\n\nJOB OFFER:\n"
    ++ job_offer
    ++ "\n\nCANDIDATE PROFILE:\n\nResume Analysis:\n"
    ++ resume_analysis
    ++ "\n\nLinkedIn Analysis:\n"
    ++ linkedin_analysis
    ++ "\n\nCover Letter Analysis:\n"
    ++ cover_letter_analysis
    ++ "\n\nProvide a comprehensive matching assessment including:\n1. Overall compatibility score (0-100)\n2. Key strengths that align with the job requirements\n3. Gaps or areas of concern\n4. Technical skills match\n5. Experience level match\n6. Cultural fit indicators\n7. Unique advantages this candidate brings\n8. Potential risks or limitations\n\nBe objective and thorough in your assessment."

/-- The final free-text ranking prompt (final_ranker.py). -/
def finalRankPrompt (job_offer all_candidates_text : String) : String :=
  "Based on all the analyses, create a final ranking of candidates for the job offer.\n\nJOB OFFER:\n"
    ++ job_offer
    ++ "\n\nCANDIDATE ANALYSES:\n"
    ++ all_candidates_text
    ++ "\n\nProvide:\n1. A ranked list of candidates (best to least suitable)\n2. For each candidate, provide:\n   - Overall score (0-100)\n   - Key strengths\n   - Key weaknesses\n   - Reasoning for their ranking\n   - Hiring recommendation (Strong Yes / Yes / Maybe / No)\n3. A summary comparing the top candidates\n4. Final recommendation\n\nBe thorough, objective, and provide actionable insights for the hiring decision."

/-- The structured-JSON extraction prompt (final_ranker.py); the report
argument is the f-string rendering of the first reply. -/
def jsonExtractPrompt (report : String) : String :=
  "Based on the following detailed ranking report, extract a structured JSON ranking.\n\nREPORT:\n"
    ++ report
    ++ "\n\nReturn ONLY a valid JSON object with this structure:\n\x7b\n    \"rankings\": [\n        \x7b\n            \"candidate_id\": \"candidate_id\",\n            \"rank\": 1,\n            \"score\": 85,\n            \"recommendation\": \"Strong Yes\",\n            \"key_strengths\": [\"strength1\", \"strength2\"],\n            \"key_weaknesses\": [\"weakness1\", \"weakness2\"]\n        \x7d\n    ],\n    \"top_recommendation\": \"candidate_id\",\n    \"summary\": \"Brief summary of the decision\"\n\x7d\n\nEnsure the JSON is valid and complete."

/-! ## Per-candidate bodies of the four per-candidate steps

Each returns the entry stored in the step's analysis dict together with
the list of model-client calls made for that candidate. -/

/-- Loop body of `analyze_resume` for one candidate. -/
def resumeOne (pdfParse : String → Except PdfErr String) (llm : LlmOracle)
    (c : Candidate) : Entry × List String :=
  match c.resume_path with
  | none => (.str "No resume provided", [])
  | some p =>
    if p = "" then (.str "No resume provided", [])
    else
      match pdfParse p with
      | .error e => (.str ("Error analyzing resume: " ++ e.str), [])
      | .ok resume_text =>
        let prompt := resumePrompt resume_text
        match llm prompt with
        | .ok analysis => (.msg analysis, [prompt])
        | .error e => (.str ("Error analyzing resume: " ++ e), [prompt])

/-- Loop body of `analyze_linkedin` for one candidate; `scrape` is the
(total) scraping function. -/
def linkedinOne (scrape : String → String) (llm : LlmOracle)
    (c : Candidate) : Entry × List String :=
  match c.linkedin_url with
  | none => (.str "No LinkedIn profile provided", [])
  | some u =>
    if u = "" then (.str "No LinkedIn profile provided", [])
    else
      let linkedin_text := scrape u
      if linkedin_text = "" then (.str "No content available", [])
      else if startsWithStr linkedin_text "Error" then (.str linkedin_text, [])
      else
        let prompt := linkedinPrompt linkedin_text
        match llm prompt with
        | .ok analysis => (.msg analysis, [prompt])
        | .error e => (.str ("Error analyzing LinkedIn: " ++ e), [prompt])

/-- Loop body of `analyze_cover_letter` for one candidate. -/
def coverOne (pdfParse : String → Except PdfErr String) (llm : LlmOracle)
    (c : Candidate) : Entry × List String :=
  match c.cover_letter_path with
  | none => (.str "No cover letter provided (optional)", [])
  | some p =>
    if p = "" then (.str "No cover letter provided (optional)", [])
    else
      match pdfParse p with
      | .error (.notFound _) => (.str "Cover letter file not found", [])
      | .error (.other m) => (.str ("Error analyzing cover letter: " ++ m), [])
      | .ok cover_letter_text =>
        if isBlank cover_letter_text then (.str "Cover letter file is empty", [])
        else
          let prompt := coverLetterPrompt cover_letter_text
          match llm prompt with
          | .ok analysis => (.msg analysis, [prompt])
          | .error e => (.str ("Error analyzing cover letter: " ++ e), [prompt])

/-- `m.get(cid, dflt)` rendered by an f-string. -/
def analysisText (m : AnalysisMap) (cid : String) (dflt : String) : String :=
  match alookup m cid with
  | some e => e.render
  | none => dflt

/-- Loop body of `match_candidates` for one candidate id. -/
def jobMatchOne (llm : LlmOracle) (job_offer : String)
    (ra la ca : AnalysisMap) (cid : String) : Entry × List String :=
  let resume_analysis := analysisText ra cid "No resume analysis"
  let linkedin_analysis := analysisText la cid "No LinkedIn analysis"
  let cover_letter_analysis := analysisText ca cid "No cover letter analysis"
  let prompt := jobMatchPrompt job_offer resume_analysis linkedin_analysis cover_letter_analysis
  match llm prompt with
  | .ok m => (.str m.content, [prompt])
  | .error e => (.str ("Error in job matching: " ++ e), [prompt])

/-! ## The four per-candidate step functions -/

/-- The `for idx, candidate in enumerate(candidates)` dict-building
loop shared by the four per-candidate steps. -/
def stepMapAux (f : Nat → Candidate → Entry) :
    Nat → List Candidate → AnalysisMap → AnalysisMap
  | _, [], m => m
  | i, c :: cs, m => stepMapAux f (i + 1) cs (dictInsert m (candidateId i c) (f i c))

/-- The analysis dict a step builds over the whole candidate list. -/
def stepMap (f : Nat → Candidate → Entry) (cs : List Candidate) : AnalysisMap :=
  stepMapAux f 0 cs []

/-- A step's partial state update: its completion message and the
analysis dict it populated. -/
structure StepUpdate where
  message : Message
  map : AnalysisMap

/-- `analyze_resume(state)`. -/
def analyze_resume (pdfParse : String → Except PdfErr String) (llm : LlmOracle)
    (st : CandidateState) : StepUpdate :=
  let resume_analyses := stepMap (fun _ c => (resumeOne pdfParse llm c).1) st.candidates
  { message := ⟨"ResumeAnalyzer",
      "Resume Analyzer: Completed analysis of "
        ++ toString resume_analyses.length ++ " candidate resumes."⟩,
    map := resume_analyses }

/-- `analyze_linkedin(state)`. -/
def analyze_linkedin (scrape : String → String) (llm : LlmOracle)
    (st : CandidateState) : StepUpdate :=
  let linkedin_analyses := stepMap (fun _ c => (linkedinOne scrape llm c).1) st.candidates
  { message := ⟨"LinkedInAnalyzer",
      "LinkedIn Analyzer: Completed analysis of "
        ++ toString linkedin_analyses.length ++ " LinkedIn profiles."⟩,
    map := linkedin_analyses }

/-- `analyze_cover_letter(state)`. -/
def analyze_cover_letter (pdfParse : String → Except PdfErr String) (llm : LlmOracle)
    (st : CandidateState) : StepUpdate :=
  let cover_letter_analyses := stepMap (fun _ c => (coverOne pdfParse llm c).1) st.candidates
  { message := ⟨"CoverLetterAnalyzer",
      "Cover Letter Analyzer: Completed analysis of "
        ++ toString cover_letter_analyses.length ++ " cover letters."⟩,
    map := cover_letter_analyses }

/-- `match_candidates(state)`. -/
def match_candidates (llm : LlmOracle) (st : CandidateState) : StepUpdate :=
  let job_matches :=
    stepMap
      (fun i c =>
        (jobMatchOne llm st.job_offer st.resume_analyses st.linkedin_analyses
            st.cover_letter_analyses (candidateId i c)).1)
      st.candidates
  { message := ⟨"JobMatcher",
      "Job Matcher: Completed matching analysis for "
        ++ toString job_matches.length ++ " candidates against the job offer."⟩,
    map := job_matches }

/-! ## Final ranker (src/supervisor/agents/final_ranker.py) -/

/-- Oracle for `json.loads`: the parsed value, or a decode error. -/
def JParseOracle := String → Except String Json

/-- The per-candidate block of the `candidates_summary` f-string. -/
def candidateSummary (ra la ca jm : AnalysisMap) (i : Nat) (c : Candidate) : String :=
  let cid := candidateId i c
  "\nCANDIDATE: " ++ cid
    ++ "\nResume: " ++ analysisText ra cid "N/A"
    ++ "\nLinkedIn: " ++ analysisText la cid "N/A"
    ++ "\nCover Letter: " ++ analysisText ca cid "N/A"
    ++ "\nJob Match: " ++ analysisText jm cid "N/A"
    ++ "\n---\n"

/-- `"\n".join(candidates_summary)`. -/
def allCandidatesText (st : CandidateState) : String :=
  String.intercalate "\n"
    (st.candidates.enum.map fun p =>
      candidateSummary st.resume_analyses st.linkedin_analyses
        st.cover_letter_analyses st.job_matches p.1 p.2)

/-- The markdown-fence stripping applied to the model's JSON text
before `json.loads`. -/
def stripFences (json_str : String) : String :=
  if (json_str.splitOn "```json").length > 1 then
    stripStr ((((json_str.splitOn "```json").getD 1 "").splitOn "```").headD "")
  else if (json_str.splitOn "```").length > 1 then
    stripStr ((((json_str.splitOn "```").getD 1 "").splitOn "```").headD "")
  else json_str

/-- One entry of the deterministic fallback `rankings` list. -/
def fallbackRanking (i : Nat) (c : Candidate) : Json :=
  .obj [("candidate_id", .str (candidateId i c)),
        ("rank", .num (Int.ofNat i + 1)),
        ("score", .num 0),
        ("recommendation", .str "Unable to parse"),
        ("key_strengths", .arr []),
        ("key_weaknesses", .arr [])]

/-- The deterministic fallback structure built when `json.loads`
fails. -/
def fallbackStructure (candidates : List Candidate) : Json :=
  .obj [("rankings", .arr (candidates.enum.map fun p => fallbackRanking p.1 p.2)),
        ("top_recommendation",
          match candidates.head? with
          | some c => .str (c.id.getD "candidate_0")
          | none => .null),
        ("summary", .str "Error parsing structured output")]

/-- The Python type name of a parsed JSON value, as it appears in the
`AttributeError` message when `.get` is called on a non-dict. -/
def Json.pyType : Json → String
  | .null => "NoneType"
  | .bool _ => "bool"
  | .num _ => "int"
  | .str _ => "str"
  | .arr _ => "list"
  | .obj _ => "dict"

/-- Rendering model for the f-string interpolation of
`structured_output.get("top_recommendation", "N/A")` into the summary
message, for a dict `structured_output` (Python `str` of the looked-up
value; `.get` on a non-dict raises instead and never reaches this
rendering). -/
def topRecommendationText (fields : List (String × Json)) : String :=
  match fields.lookup "top_recommendation" with
  | none => "N/A"
  | some .null => "None"
  | some (.str s) => s
  | some (.num n) => toString n
  | some (.bool b) => if b then "True" else "False"
  | some (.arr _) => "<list>"
  | some (.obj _) => "<dict>"

/-- The `try:` body of `rank_candidates`: both model calls may raise
(propagated as `.error`); the JSON-decode failure is handled inside by
the fallback; but a successfully parsed non-dict value raises
`AttributeError` at the summary f-string's `.get` call, which also
propagates to the outer handler. Returns the final ranking and the
summary message content. -/
def rankBody (llm : LlmOracle) (jparse : JParseOracle) (st : CandidateState) :
    Except String (FinalRanking × String) :=
  match llm (finalRankPrompt st.job_offer (allCandidatesText st)) with
  | .error e => .error e
  | .ok detailed_report =>
    match llm (jsonExtractPrompt detailed_report.render) with
    | .error e => .error e
    | .ok json_response =>
      let structured_output :=
        match jparse (stripFences json_response.render) with
        | .ok j => j
        | .error _ => fallbackStructure st.candidates
      match structured_output with
      | .obj fields =>
        .ok (⟨detailed_report.render, .obj fields⟩,
          "Final Ranker: Completed ranking of " ++ toString st.candidates.length
            ++ " candidates. Top recommendation: " ++ topRecommendationText fields)
      | other =>
        .error ("'" ++ other.pyType ++ "' object has no attribute 'get'")

/-- The final ranker's partial state update. -/
structure RankUpdate where
  message : Message
  final_ranking : FinalRanking

/-- `rank_candidates(state)`: run the body and catch every failure,
converting it into an error-shaped final ranking returned normally
(both branches return a message named FinalRanker). -/
def rank_candidates (llm : LlmOracle) (jparse : JParseOracle)
    (st : CandidateState) : RankUpdate :=
  let result : String × FinalRanking :=
    match rankBody llm jparse st with
    | .ok (fr, summary) => (summary, fr)
    | .error e =>
        ("Final Ranker: Error - " ++ e,
         ⟨"Error generating ranking: " ++ e, .obj [("error", .str e)]⟩)
  ⟨⟨"FinalRanker", result.1⟩, result.2⟩

/-! ## Supervisor router (src/supervisor/supervisor.py) -/

/-- The team members, in the order of the `members` list. -/
inductive Member where
  | ResumeAnalyzer
  | LinkedInAnalyzer
  | CoverLetterAnalyzer
  | JobMatcher
  | FinalRanker
deriving Repr, DecidableEq

/-- `members = ["ResumeAnalyzer", ..., "FinalRanker"]`. -/
def members : List Member :=
  [.ResumeAnalyzer, .LinkedInAnalyzer, .CoverLetterAnalyzer, .JobMatcher, .FinalRanker]

/-- The agent name string attached to a member's completion message. -/
def memberName : Member → String
  | .ResumeAnalyzer => "ResumeAnalyzer"
  | .LinkedInAnalyzer => "LinkedInAnalyzer"
  | .CoverLetterAnalyzer => "CoverLetterAnalyzer"
  | .JobMatcher => "JobMatcher"
  | .FinalRanker => "FinalRanker"

/-- A routing decision (`RouteResponse.next`). -/
inductive Route where
  | member (m : Member)
  | FINISH
deriving Repr, DecidableEq

/-- The string value written into the state's `next` field. -/
def Route.str : Route → String
  | .member m => memberName m
  | .FINISH => "FINISH"

/-- Whether the message history contains a message from the given
member ("each agent adds a message with their name when they
complete"). -/
def hasMsg (msgs : List Message) (m : Member) : Bool :=
  msgs.any (fun x => x.name == memberName m)

/-- The completion-marker set of an evaluation state. -/
structure Markers where
  resumeDone : Bool
  linkedinDone : Bool
  coverLetterDone : Bool
  jobMatchDone : Bool
  finalRankDone : Bool
deriving Repr, DecidableEq

/-- A member's marker inside a marker set. -/
def Markers.get (mk : Markers) : Member → Bool
  | .ResumeAnalyzer => mk.resumeDone
  | .LinkedInAnalyzer => mk.linkedinDone
  | .CoverLetterAnalyzer => mk.coverLetterDone
  | .JobMatcher => mk.jobMatchDone
  | .FinalRanker => mk.finalRankDone

/-- The completion markers read off the message history. -/
def markersOf (msgs : List Message) : Markers :=
  ⟨hasMsg msgs .ResumeAnalyzer, hasMsg msgs .LinkedInAnalyzer,
   hasMsg msgs .CoverLetterAnalyzer, hasMsg msgs .JobMatcher,
   hasMsg msgs .FinalRanker⟩

/-- The six mandatory workflow rules of the supervisor system prompt:
route to the first member whose completion message is absent, else
FINISH. -/
def promptRule (mk : Markers) : Route :=
  if !mk.resumeDone then .member .ResumeAnalyzer
  else if !mk.linkedinDone then .member .LinkedInAnalyzer
  else if !mk.coverLetterDone then .member .CoverLetterAnalyzer
  else if !mk.jobMatchDone then .member .JobMatcher
  else if !mk.finalRankDone then .member .FinalRanker
  else .FINISH

/-- Spec-side restatement of the routing rule, for comparison with
`promptRule`: the first step in the fixed `members` order whose
completion marker is absent, else terminate. -/
def specNext (present : Member → Bool) : Route :=
  match members.find? (fun m => !(present m)) with
  | some m => .member m
  | none => .FINISH

/-- Oracle for the structured-output routing call: the supervisor chain
maps the message history to a routing decision. -/
def RouteOracle := List Message → Route

/-- The routing oracle honours the mandatory workflow rules of the
system prompt. -/
def FollowsRules (route : RouteOracle) : Prop :=
  ∀ msgs, route msgs = promptRule (markersOf msgs)

/-- `supervisor_agent(state)`: invoke the supervisor chain on the
message history and return the `next` value. -/
def supervisor_agent (route : RouteOracle) (st : CandidateState) : String :=
  (route st.messages).str

/-! ## Graph loop (src/supervisor/graph.py, src/supervisor/main.py) -/

/-- Bundle of all external-collaborator oracles of one run. -/
structure Oracles where
  fs : FsOracle
  urlparse : UrlOracle
  web : WebOracle
  llm : LlmOracle
  jparse : JParseOracle
  route : RouteOracle

/-- Execute one member node and merge its partial update into the
state: `messages` is an `operator.add` channel, the other fields are
plain last-value channels. -/
def applyMember (o : Oracles) (st : CandidateState) : Member → CandidateState
  | .ResumeAnalyzer =>
    let u := analyze_resume (parse_pdf o.fs) o.llm st
    { st with messages := st.messages ++ [u.message], resume_analyses := u.map }
  | .LinkedInAnalyzer =>
    let u := analyze_linkedin (scrape_linkedin o.urlparse o.web) o.llm st
    { st with messages := st.messages ++ [u.message], linkedin_analyses := u.map }
  | .CoverLetterAnalyzer =>
    let u := analyze_cover_letter (parse_pdf o.fs) o.llm st
    { st with messages := st.messages ++ [u.message], cover_letter_analyses := u.map }
  | .JobMatcher =>
    let u := match_candidates o.llm st
    { st with messages := st.messages ++ [u.message], job_matches := u.map }
  | .FinalRanker =>
    let u := rank_candidates o.llm o.jparse st
    { st with messages := st.messages ++ [u.message], final_ranking := some u.final_ranking }

/-- The supervisor loop of the compiled graph: ask the supervisor for
the next node, run it, and return to the supervisor; stop on FINISH.
`fuel` bounds the number of supervisor visits (the graph's recursion
limit). -/
def runLoop (o : Oracles) : Nat → CandidateState → CandidateState
  | 0, st => st
  | fuel + 1, st =>
    let nxt := supervisor_agent o.route st
    match (o.route st.messages) with
    | .FINISH => { st with next := nxt }
    | .member m => runLoop o fuel (applyMember o { st with next := nxt } m)

/-- The initial state built by `evaluate_candidates` (main.py). -/
def initialState (job_offer : String) (candidates : List Candidate) : CandidateState :=
  { messages := [⟨"user",
      "Please evaluate " ++ toString candidates.length
        ++ " candidates for the following job offer. Follow the complete workflow: analyze resumes, LinkedIn profiles, cover letters, match candidates to the job, and provide final rankings."⟩],
    job_offer := job_offer,
    candidates := candidates,
    resume_analyses := [],
    linkedin_analyses := [],
    cover_letter_analyses := [],
    job_matches := [],
    final_ranking := none,
    next := "" }

/-- A full run: `graph.invoke(initial_state)` with the default
recursion limit. -/
def runGraph (o : Oracles) (job_offer : String) (candidates : List Candidate) :
    CandidateState :=
  runLoop o 25 (initialState job_offer candidates)

/-- The five step executions in the fixed workflow order, followed by
the terminal FINISH decision: what the supervisor loop performs when
the routing oracle honours the prompt rules. -/
def runSequential (o : Oracles) (job_offer : String) (candidates : List Candidate) :
    CandidateState :=
  let st0 := initialState job_offer candidates
  let st1 := applyMember o { st0 with next := "ResumeAnalyzer" } .ResumeAnalyzer
  let st2 := applyMember o { st1 with next := "LinkedInAnalyzer" } .LinkedInAnalyzer
  let st3 := applyMember o { st2 with next := "CoverLetterAnalyzer" } .CoverLetterAnalyzer
  let st4 := applyMember o { st3 with next := "JobMatcher" } .JobMatcher
  let st5 := applyMember o { st4 with next := "FinalRanker" } .FinalRanker
  { st5 with next := "FINISH" }

/-- A routing oracle that computes the prompt rules exactly (the
pure-lookup strategy); used to instantiate routing hypotheses. -/
def ruleRoute : RouteOracle := fun msgs => promptRule (markersOf msgs)

/-! ## Lemmas about the dict-building loop -/

/-- The computed candidate ids of a list, starting at index `i`. -/
def idsFrom : Nat → List Candidate → List String
  | _, [] => []
  | i, c :: cs => candidateId i c :: idsFrom (i + 1) cs

/-- Whether some candidate's computed id equals `k`. -/
def anyId : Nat → List Candidate → String → Bool
  | _, [], _ => false
  | i, c :: cs, k => decide (candidateId i c = k) || anyId (i + 1) cs k

/-- The latest per-candidate result whose computed id is `k`. -/
def lastHit (f : Nat → Candidate → Entry) : Nat → List Candidate → String → Option Entry
  | _, [], _ => none
  | i, c :: cs, k =>
    match lastHit f (i + 1) cs k with
    | some e => some e
    | none => if candidateId i c = k then some (f i c) else none

theorem anyId_eq_true_iff (cs : List Candidate) :
    ∀ (i : Nat) (k : String), anyId i cs k = true ↔ k ∈ idsFrom i cs := by
  induction cs with
  | nil => intro i k; simp [anyId, idsFrom]
  | cons c cs ih =>
    intro i k
    simp only [anyId, idsFrom, Bool.or_eq_true, decide_eq_true_eq, List.mem_cons, ih]
    constructor
    · rintro (h | h)
      · exact Or.inl h.symm
      · exact Or.inr h
    · rintro (h | h)
      · exact Or.inl h.symm
      · exact Or.inr h

theorem stepMapAux_append (f : Nat → Candidate → Entry) (xs ys : List Candidate) :
    ∀ (i : Nat) (m : AnalysisMap),
      stepMapAux f i (xs ++ ys) m =
        stepMapAux f (i + xs.length) ys (stepMapAux f i xs m) := by
  induction xs with
  | nil => intro i m; simp [stepMapAux]
  | cons c xs ih =>
    intro i m
    have harith : i + (xs.length + 1) = i + 1 + xs.length := by omega
    simp only [List.cons_append, stepMapAux, List.length_cons, harith, List.append_eq, ih]

theorem alookup_stepMapAux (f : Nat → Candidate → Entry) (cs : List Candidate) :
    ∀ (i : Nat) (m : AnalysisMap) (k : String),
      alookup (stepMapAux f i cs m) k =
        match lastHit f i cs k with
        | some e => some e
        | none => alookup m k := by
  induction cs with
  | nil => intro i m k; simp [stepMapAux, lastHit]
  | cons c cs ih =>
    intro i m k
    simp only [stepMapAux, lastHit, ih, alookup_dictInsert]
    cases lastHit f (i + 1) cs k with
    | some e => simp
    | none =>
      by_cases hq : candidateId i c = k
      · simp [hq]
      · have : ¬ k = candidateId i c := fun h => hq h.symm
        simp [hq, this]

theorem lastHit_eq_none (f : Nat → Candidate → Entry) (cs : List Candidate) :
    ∀ (i : Nat) (k : String), anyId i cs k = false → lastHit f i cs k = none := by
  induction cs with
  | nil => intro i k _; rfl
  | cons c cs ih =>
    intro i k h
    simp only [anyId, Bool.or_eq_false_iff, decide_eq_false_iff_not] at h
    simp only [lastHit, ih _ _ h.2, if_neg h.1]

theorem lastHit_append (f : Nat → Candidate → Entry) (xs ys : List Candidate) :
    ∀ (i : Nat) (k : String),
      lastHit f i (xs ++ ys) k =
        match lastHit f (i + xs.length) ys k with
        | some e => some e
        | none => lastHit f i xs k := by
  induction xs with
  | nil =>
    intro i k
    simp only [List.nil_append, List.length_nil, Nat.add_zero]
    cases lastHit f i ys k <;> simp [lastHit]
  | cons c xs ih =>
    intro i k
    have harith : i + (xs.length + 1) = i + 1 + xs.length := by omega
    simp only [List.cons_append, lastHit, List.append_eq, ih, List.length_cons, harith]
    cases lastHit f (i + 1 + xs.length) ys k <;> rfl

theorem hasKey_stepMapAux (f : Nat → Candidate → Entry) (cs : List Candidate) :
    ∀ (i : Nat) (m : AnalysisMap) (k : String),
      hasKey (stepMapAux f i cs m) k = (hasKey m k || anyId i cs k) := by
  induction cs with
  | nil => intro i m k; simp [stepMapAux, anyId]
  | cons c cs ih =>
    intro i m k
    simp only [stepMapAux, anyId, ih, hasKey_dictInsert, Bool.or_assoc]

theorem length_stepMapAux_le (f : Nat → Candidate → Entry) (cs : List Candidate) :
    ∀ (i : Nat) (m : AnalysisMap),
      (stepMapAux f i cs m).length ≤ m.length + cs.length := by
  induction cs with
  | nil => intro i m; simp [stepMapAux]
  | cons c cs ih =>
    intro i m
    simp only [stepMapAux, List.length_cons]
    have h1 := ih (i + 1) (dictInsert m (candidateId i c) (f i c))
    have h2 : (dictInsert m (candidateId i c) (f i c)).length ≤ m.length + 1 := by
      rw [length_dictInsert]; split <;> omega
    omega

theorem length_stepMapAux_lt_of_key (f : Nat → Candidate → Entry) (cs : List Candidate) :
    ∀ (i : Nat) (m : AnalysisMap) (k : String),
      hasKey m k = true → anyId i cs k = true →
      (stepMapAux f i cs m).length < m.length + cs.length := by
  induction cs with
  | nil => intro i m k _ h; simp [anyId] at h
  | cons c cs ih =>
    intro i m k hm hany
    simp only [stepMapAux, List.length_cons]
    simp only [anyId, Bool.or_eq_true, decide_eq_true_eq] at hany
    rcases hany with hc | hrest
    · have hkey : hasKey m (candidateId i c) = true := by rw [hc]; exact hm
      have hlen : (dictInsert m (candidateId i c) (f i c)).length = m.length := by
        rw [length_dictInsert, if_pos hkey]
      have := length_stepMapAux_le f cs (i + 1) (dictInsert m (candidateId i c) (f i c))
      omega
    · have hkey : hasKey (dictInsert m (candidateId i c) (f i c)) k = true := by
        rw [hasKey_dictInsert, hm, Bool.true_or]
      have h1 := ih (i + 1) (dictInsert m (candidateId i c) (f i c)) k hkey hrest
      have h2 : (dictInsert m (candidateId i c) (f i c)).length ≤ m.length + 1 := by
        rw [length_dictInsert]; split <;> omega
      omega

theorem length_stepMapAux_nodup (f : Nat → Candidate → Entry) (cs : List Candidate) :
    ∀ (i : Nat) (m : AnalysisMap),
      (idsFrom i cs).Nodup → (∀ k, anyId i cs k = true → hasKey m k = false) →
      (stepMapAux f i cs m).length = m.length + cs.length := by
  induction cs with
  | nil => intro i m _ _; simp [stepMapAux]
  | cons c cs ih =>
    intro i m hnd hfresh
    simp only [idsFrom, List.nodup_cons] at hnd
    have hnew : hasKey m (candidateId i c) = false := by
      apply hfresh
      simp [anyId]
    have hlen : (dictInsert m (candidateId i c) (f i c)).length = m.length + 1 := by
      rw [length_dictInsert, if_neg (by simp [hnew])]
    simp only [stepMapAux, List.length_cons]
    rw [ih (i + 1) _ hnd.2, hlen]
    · omega
    · intro k hk
      rw [hasKey_dictInsert]
      have h1 : hasKey m k = false := by
        apply hfresh
        simp [anyId, hk]
      have h2 : candidateId i c ≠ k := by
        intro h
        exact hnd.1 (h ▸ (anyId_eq_true_iff cs (i + 1) k).mp hk)
      simp [h1, h2]

theorem length_stepMap_of_nodup (f : Nat → Candidate → Entry) (cs : List Candidate)
    (h : (idsFrom 0 cs).Nodup) : (stepMap f cs).length = cs.length := by
  have := length_stepMapAux_nodup f cs 0 [] h (fun k _ => rfl)
  simpa [stepMap] using this

theorem alookup_stepMap_last (f : Nat → Candidate → Entry)
    (xs : List Candidate) (c : Candidate) (ys : List Candidate) (k : String)
    (hk : candidateId xs.length c = k) (hys : anyId (xs.length + 1) ys k = false) :
    alookup (stepMap f (xs ++ c :: ys)) k = some (f xs.length c) := by
  unfold stepMap
  rw [alookup_stepMapAux, lastHit_append]
  simp only [Nat.zero_add, lastHit, lastHit_eq_none f ys (xs.length + 1) k hys, if_pos hk]

/-! ## Lemmas about the supervisor loop -/

theorem hasMsg_append (a b : List Message) (m : Member) :
    hasMsg (a ++ b) m = (hasMsg a m || hasMsg b m) := by
  simp [hasMsg, List.any_append]

theorem runLoop_finish (o : Oracles) (fuel : Nat) (st : CandidateState)
    (h : o.route st.messages = .FINISH) :
    runLoop o (fuel + 1) st = { st with next := "FINISH" } := by
  simp [runLoop, supervisor_agent, h, Route.str]

theorem runLoop_step (o : Oracles) (fuel : Nat) (st : CandidateState) (m : Member)
    (h : o.route st.messages = .member m) :
    runLoop o (fuel + 1) st =
      runLoop o fuel (applyMember o { st with next := memberName m } m) := by
  simp [runLoop, supervisor_agent, h, Route.str]

/-- When the routing oracle honours the prompt's mandatory workflow
rules, the graph executes exactly the five steps in the fixed order and
then terminates. -/
theorem runGraph_follows_rules (o : Oracles) (h : FollowsRules o.route)
    (j : String) (cs : List Candidate) :
    runGraph o j cs = runSequential o j cs := by
  unfold runGraph
  have r0 : o.route (initialState j cs).messages = .member .ResumeAnalyzer := by
    rw [h]
    simp [initialState, markersOf, hasMsg, memberName, promptRule]
  rw [show (25 : Nat) = 24 + 1 from rfl, runLoop_step o 24 _ _ r0]
  set st1 := applyMember o { initialState j cs with next := memberName Member.ResumeAnalyzer }
    .ResumeAnalyzer with hst1
  have r1 : o.route st1.messages = .member .LinkedInAnalyzer := by
    rw [hst1, h]
    simp [initialState, applyMember, analyze_resume, analyze_linkedin,
      analyze_cover_letter, match_candidates, rank_candidates, markersOf, hasMsg,
      memberName, promptRule, List.any_append]
  rw [show (24 : Nat) = 23 + 1 from rfl, runLoop_step o 23 _ _ r1]
  set st2 := applyMember o { st1 with next := memberName Member.LinkedInAnalyzer }
    .LinkedInAnalyzer with hst2
  have r2 : o.route st2.messages = .member .CoverLetterAnalyzer := by
    rw [hst2, hst1, h]
    simp [initialState, applyMember, analyze_resume, analyze_linkedin,
      analyze_cover_letter, match_candidates, rank_candidates, markersOf, hasMsg,
      memberName, promptRule, List.any_append]
  rw [show (23 : Nat) = 22 + 1 from rfl, runLoop_step o 22 _ _ r2]
  set st3 := applyMember o { st2 with next := memberName Member.CoverLetterAnalyzer }
    .CoverLetterAnalyzer with hst3
  have r3 : o.route st3.messages = .member .JobMatcher := by
    rw [hst3, hst2, hst1, h]
    simp [initialState, applyMember, analyze_resume, analyze_linkedin,
      analyze_cover_letter, match_candidates, rank_candidates, markersOf, hasMsg,
      memberName, promptRule, List.any_append]
  rw [show (22 : Nat) = 21 + 1 from rfl, runLoop_step o 21 _ _ r3]
  set st4 := applyMember o { st3 with next := memberName Member.JobMatcher }
    .JobMatcher with hst4
  have r4 : o.route st4.messages = .member .FinalRanker := by
    rw [hst4, hst3, hst2, hst1, h]
    simp [initialState, applyMember, analyze_resume, analyze_linkedin,
      analyze_cover_letter, match_candidates, rank_candidates, markersOf, hasMsg,
      memberName, promptRule, List.any_append]
  rw [show (21 : Nat) = 20 + 1 from rfl, runLoop_step o 20 _ _ r4]
  set st5 := applyMember o { st4 with next := memberName Member.FinalRanker }
    .FinalRanker with hst5
  have r5 : o.route st5.messages = .FINISH := by
    rw [hst5, hst4, hst3, hst2, hst1, h]
    simp [initialState, applyMember, analyze_resume, analyze_linkedin,
      analyze_cover_letter, match_candidates, rank_candidates, markersOf, hasMsg,
      memberName, promptRule, List.any_append]
  rw [show (20 : Nat) = 19 + 1 from rfl, runLoop_finish o 19 _ r5]
  rw [hst5, hst4, hst3, hst2, hst1]
  rfl

theorem length_stepMap_lt_of_dup (f : Nat → Candidate → Entry)
    (xs : List Candidate) (c : Candidate) (ys : List Candidate) (k : String)
    (hk : candidateId xs.length c = k) (hxs : anyId 0 xs k = true) :
    (stepMap f (xs ++ c :: ys)).length < (xs ++ c :: ys).length := by
  unfold stepMap
  rw [stepMapAux_append]
  have hkey : hasKey (stepMapAux f 0 xs []) k = true := by
    rw [hasKey_stepMapAux]
    simp [hasKey, hxs]
  have hany : anyId (0 + xs.length) (c :: ys) k = true := by
    simp [anyId, hk]
  have hlt := length_stepMapAux_lt_of_key f (c :: ys) (0 + xs.length)
    (stepMapAux f 0 xs []) k hkey hany
  have hle := length_stepMapAux_le f xs 0 ([] : AnalysisMap)
  simp only [List.length_nil, Nat.zero_add, List.length_cons] at hle hlt
  simp only [List.length_append, List.length_cons, Nat.zero_add]
  omega

/-! ## The composed per-step maps of a sequential run -/

/-- The resume-analysis map a run builds over `cs`. -/
def resumeMap (o : Oracles) (cs : List Candidate) : AnalysisMap :=
  stepMap (fun _ c => (resumeOne (parse_pdf o.fs) o.llm c).1) cs

/-- The LinkedIn-analysis map a run builds over `cs`. -/
def linkedinMap (o : Oracles) (cs : List Candidate) : AnalysisMap :=
  stepMap (fun _ c => (linkedinOne (scrape_linkedin o.urlparse o.web) o.llm c).1) cs

/-- The cover-letter-analysis map a run builds over `cs`. -/
def coverMap (o : Oracles) (cs : List Candidate) : AnalysisMap :=
  stepMap (fun _ c => (coverOne (parse_pdf o.fs) o.llm c).1) cs

/-- The job-match map a run builds over `cs` (reading the three prior
maps). -/
def jobMatchMap (o : Oracles) (j : String) (cs : List Candidate) : AnalysisMap :=
  stepMap
    (fun i c =>
      (jobMatchOne o.llm j (resumeMap o cs) (linkedinMap o cs) (coverMap o cs)
          (candidateId i c)).1)
    cs

theorem runSequential_resume_analyses (o : Oracles) (j : String) (cs : List Candidate) :
    (runSequential o j cs).resume_analyses = resumeMap o cs := rfl

theorem runSequential_linkedin_analyses (o : Oracles) (j : String) (cs : List Candidate) :
    (runSequential o j cs).linkedin_analyses = linkedinMap o cs := rfl

theorem runSequential_cover_letter_analyses (o : Oracles) (j : String) (cs : List Candidate) :
    (runSequential o j cs).cover_letter_analyses = coverMap o cs := rfl

theorem runSequential_job_matches (o : Oracles) (j : String) (cs : List Candidate) :
    (runSequential o j cs).job_matches = jobMatchMap o j cs := rfl

/-! ## Concrete fixtures used by witnesses and counterexamples -/

/-- A filesystem with no files. -/
def fsNone : FsOracle := fun _ => none

/-- A model client that fails on every call. -/
def llmFail : LlmOracle := fun _ => .error "model offline"

/-- A model client that replies to every prompt with a fixed non-JSON
reply. -/
def llmOkFixed : LlmOracle := fun _ => .ok ⟨"analysis text", "extra"⟩

/-- A JSON decoder that rejects every input. -/
def jparseFail : JParseOracle := fun _ => .error "Expecting value: line 1 column 1 (char 0)"

/-- A full oracle bundle with empty filesystem and failing model. -/
def oW : Oracles :=
  { fs := fsNone,
    urlparse := fun _ => ⟨"", ""⟩,
    web := fun _ _ => .error "offline",
    llm := llmFail,
    jparse := jparseFail,
    route := ruleRoute }

/-- A candidate with only a resume path. -/
def cResumeOnly : Candidate := ⟨some "a", some "resume.pdf", none, none⟩

/-- Two candidates with distinct ids. -/
def cAlice : Candidate := ⟨some "alice", some "alice.pdf", some "alice profile text", some "alice_cl.pdf"⟩

/-- Second distinct candidate. -/
def cBob : Candidate := ⟨some "bob", none, none, none⟩

/-- Two candidates sharing the id "dup". -/
def cDup1 : Candidate := ⟨some "dup", none, none, none⟩

/-- Later candidate with the same id "dup" but a resume path. -/
def cDup2 : Candidate := ⟨some "dup", some "r2.pdf", none, none⟩

/-! ## Claims -/

/-- C1: for every evaluation state, the supervisor's next-step decision
under the prompt's mandatory workflow rules is a pure function of the
completion-marker set alone: states with equal marker sets get the same
decision (so replaying from the same marker set reproduces it,
regardless of how often it is invoked); before any step has run the
decision is the Resume step; once all five markers are present the
decision is FINISH; and in general the decision is the first member in
the fixed order resume, LinkedIn, cover-letter, job-match, final-rank
whose marker is absent. -/
theorem router_pure_function_of_markers (route : RouteOracle) (h : FollowsRules route) :
    (∀ st st' : CandidateState, markersOf st.messages = markersOf st'.messages →
      supervisor_agent route st = supervisor_agent route st')
    ∧ (∀ st : CandidateState, (∀ m : Member, hasMsg st.messages m = false) →
      supervisor_agent route st = "ResumeAnalyzer")
    ∧ (∀ st : CandidateState, (∀ m : Member, hasMsg st.messages m = true) →
      supervisor_agent route st = "FINISH")
    ∧ (∀ st : CandidateState,
      supervisor_agent route st = (specNext (markersOf st.messages).get).str) := by
  have hrule : ∀ mk : Markers, promptRule mk = specNext mk.get := by
    intro mk
    obtain ⟨r, l, c, jm, fr⟩ := mk
    cases r <;> cases l <;> cases c <;> cases jm <;> cases fr <;> rfl
  refine ⟨?_, ?_, ?_, ?_⟩
  · intro st st' he
    simp only [supervisor_agent, h st.messages, h st'.messages, he]
  · intro st hm
    have hmk : markersOf st.messages = ⟨false, false, false, false, false⟩ := by
      simp [markersOf, hm]
    simp [supervisor_agent, h st.messages, hmk, promptRule, Route.str, memberName]
  · intro st hm
    have hmk : markersOf st.messages = ⟨true, true, true, true, true⟩ := by
      simp [markersOf, hm]
    simp [supervisor_agent, h st.messages, hmk, promptRule, Route.str]
  · intro st
    simp only [supervisor_agent, h st.messages, hrule]

/-- C1 witness: the routing contract is satisfiable (by the pure-lookup
oracle) and with no completion messages present the decision is the
Resume step. -/
theorem router_pure_function_of_markers_witness :
    supervisor_agent ruleRoute (initialState "job" []) = "ResumeAnalyzer" :=
  (router_pure_function_of_markers ruleRoute (fun _ => rfl)).2.1
    (initialState "job" []) (by intro m; cases m <;> decide)

/-- C4: after a full run whose routing oracle honours the prompt rules
and whose candidate ids are unique, each of the four per-step analysis
maps contains exactly one entry per candidate — its key set is exactly
the candidate-id set. -/
theorem full_run_maps_one_entry_per_candidate (o : Oracles)
    (h : FollowsRules o.route) (j : String) (cs : List Candidate)
    (hids : (idsFrom 0 cs).Nodup) :
    ((runGraph o j cs).resume_analyses).length = cs.length
    ∧ ((runGraph o j cs).linkedin_analyses).length = cs.length
    ∧ ((runGraph o j cs).cover_letter_analyses).length = cs.length
    ∧ ((runGraph o j cs).job_matches).length = cs.length
    ∧ (∀ k, hasKey ((runGraph o j cs).resume_analyses) k = anyId 0 cs k) := by
  rw [runGraph_follows_rules o h j cs]
  rw [runSequential_resume_analyses, runSequential_linkedin_analyses,
    runSequential_cover_letter_analyses, runSequential_job_matches]
  refine ⟨length_stepMap_of_nodup _ cs hids, length_stepMap_of_nodup _ cs hids,
    length_stepMap_of_nodup _ cs hids, length_stepMap_of_nodup _ cs hids, ?_⟩
  intro k
  unfold resumeMap stepMap
  rw [hasKey_stepMapAux]
  rfl

/-- C4 witness: a concrete two-candidate run with failing oracles still
yields exactly two entries in every map. -/
theorem full_run_maps_one_entry_per_candidate_witness :
    ((runGraph oW "job" [cAlice, cBob]).resume_analyses).length = 2
    ∧ ((runGraph oW "job" [cAlice, cBob]).linkedin_analyses).length = 2
    ∧ ((runGraph oW "job" [cAlice, cBob]).cover_letter_analyses).length = 2
    ∧ ((runGraph oW "job" [cAlice, cBob]).job_matches).length = 2 := by
  have h := full_run_maps_one_entry_per_candidate oW (fun _ => rfl) "job"
    [cAlice, cBob] (by decide)
  exact ⟨h.1, h.2.1, h.2.2.1, h.2.2.2.1⟩

/-- C9: when an earlier candidate shares the computed id of the
candidate at position `xs.length` (and no later candidate reuses it),
the resume and LinkedIn steps record a single entry under that id whose
value is the later candidate's result (last write wins), and the map
ends up strictly smaller than the candidate list. -/
theorem duplicate_ids_last_write_wins
    (pdfP : String → Except PdfErr String) (scrape : String → String) (llm : LlmOracle)
    (st : CandidateState) (xs : List Candidate) (c2 : Candidate) (ys : List Candidate)
    (k : String)
    (hsplit : st.candidates = xs ++ c2 :: ys)
    (hk : candidateId xs.length c2 = k)
    (hdup : anyId 0 xs k = true)
    (hys : anyId (xs.length + 1) ys k = false) :
    alookup (analyze_resume pdfP llm st).map k = some ((resumeOne pdfP llm c2).1)
    ∧ alookup (analyze_linkedin scrape llm st).map k = some ((linkedinOne scrape llm c2).1)
    ∧ ((analyze_resume pdfP llm st).map).length < st.candidates.length
    ∧ ((analyze_linkedin scrape llm st).map).length < st.candidates.length := by
  simp only [analyze_resume, analyze_linkedin, hsplit]
  exact ⟨alookup_stepMap_last _ xs c2 ys k hk hys,
    alookup_stepMap_last _ xs c2 ys k hk hys,
    length_stepMap_lt_of_dup _ xs c2 ys k hk hdup,
    length_stepMap_lt_of_dup _ xs c2 ys k hk hdup⟩

/-- C9 witness: with two candidates both having id "dup", the recorded
entry is the second candidate's result and the map has one entry. -/
theorem duplicate_ids_last_write_wins_witness :
    alookup (analyze_resume (parse_pdf fsNone) llmFail
      (initialState "job" [cDup1, cDup2])).map "dup"
      = some ((resumeOne (parse_pdf fsNone) llmFail cDup2).1)
    ∧ ((analyze_resume (parse_pdf fsNone) llmFail
        (initialState "job" [cDup1, cDup2])).map).length < 2 := by
  have h := duplicate_ids_last_write_wins (parse_pdf fsNone) (fun s => s) llmFail
    (initialState "job" [cDup1, cDup2]) [cDup1] cDup2 [] "dup"
    rfl (by decide) (by decide) (by decide)
  exact ⟨h.1, h.2.2.1⟩

/-- C5: a model-call failure while processing one candidate is caught
and stored as a descriptive string entry for that candidate (shown for
the LinkedIn and job-match steps); a candidate's recorded entry is a
function of that candidate alone, unaffected by what happened to the
others; and the steps always return their completion message. -/
theorem per_candidate_failures_isolated :
    (∀ (scrape : String → String) (llm : LlmOracle) (c : Candidate) (u e : String),
      c.linkedin_url = some u → u ≠ "" → scrape u ≠ "" →
      startsWithStr (scrape u) "Error" = false →
      llm (linkedinPrompt (scrape u)) = .error e →
      (linkedinOne scrape llm c).1 = .str ("Error analyzing LinkedIn: " ++ e))
    ∧ (∀ (llm : LlmOracle) (jo : String) (ra la ca : AnalysisMap) (cid e : String),
      llm (jobMatchPrompt jo (analysisText ra cid "No resume analysis")
        (analysisText la cid "No LinkedIn analysis")
        (analysisText ca cid "No cover letter analysis")) = .error e →
      (jobMatchOne llm jo ra la ca cid).1 = .str ("Error in job matching: " ++ e))
    ∧ (∀ (f : Nat → Candidate → Entry) (xs : List Candidate) (c : Candidate)
        (ys : List Candidate) (k : String),
      candidateId xs.length c = k → anyId (xs.length + 1) ys k = false →
      alookup (stepMap f (xs ++ c :: ys)) k = some (f xs.length c))
    ∧ (∀ (scrape : String → String) (llm : LlmOracle) (st : CandidateState),
      (analyze_linkedin scrape llm st).message =
        ⟨"LinkedInAnalyzer", "LinkedIn Analyzer: Completed analysis of "
          ++ toString ((analyze_linkedin scrape llm st).map).length
          ++ " LinkedIn profiles."⟩)
    ∧ (∀ (llm : LlmOracle) (st : CandidateState),
      (match_candidates llm st).message =
        ⟨"JobMatcher", "Job Matcher: Completed matching analysis for "
          ++ toString ((match_candidates llm st).map).length
          ++ " candidates against the job offer."⟩) := by
  refine ⟨?_, ?_, ?_, ?_, ?_⟩
  · intro scrape llm c u e hu hne hscr hpre hllm
    simp [linkedinOne, hu, hne, hscr, hpre, hllm]
  · intro llm jo ra la ca cid e hllm
    simp [jobMatchOne, hllm]
  · intro f xs c ys k hk hys
    exact alookup_stepMap_last f xs c ys k hk hys
  · intro scrape llm st
    rfl
  · intro llm st
    rfl

/-- C5 witness: a concrete LinkedIn model-call failure is stored as an
error string; a concrete two-candidate map keeps the first candidate's
entry intact. -/
theorem per_candidate_failures_isolated_witness :
    (linkedinOne (fun s => s) llmFail cAlice).1
      = .str ("Error analyzing LinkedIn: " ++ "model offline")
    ∧ alookup (stepMap (fun _ c => (resumeOne (parse_pdf fsNone) llmFail c).1)
        ([] ++ cAlice :: [cBob])) "alice"
      = some ((resumeOne (parse_pdf fsNone) llmFail cAlice).1) := by
  refine ⟨?_, ?_⟩
  · exact per_candidate_failures_isolated.1 (fun s => s) llmFail cAlice
      "alice profile text" "model offline" rfl (by decide) (by decide) (by decide) rfl
  · exact per_candidate_failures_isolated.2.2.1
      (fun _ c => (resumeOne (parse_pdf fsNone) llmFail c).1)
      [] cAlice [cBob] "alice" (by decide) (by decide)

/-- C2: whenever the structured-JSON extraction text fails to parse
(after optional code-fence stripping), the final-rank step returns
normally and produces the deterministic fallback: one ranking entry per
candidate in input order with rank = input position + 1, score 0,
recommendation "Unable to parse", empty strength and weakness lists,
top_recommendation the first candidate's id (null when the candidate
list is empty), and the fixed error summary string. -/
theorem fallback_on_json_parse_failure (llm : LlmOracle) (jparse : JParseOracle)
    (st : CandidateState) (m1 m2 : LlmMsg) (e : String)
    (h1 : llm (finalRankPrompt st.job_offer (allCandidatesText st)) = .ok m1)
    (h2 : llm (jsonExtractPrompt m1.render) = .ok m2)
    (h3 : jparse (stripFences m2.render) = .error e) :
    (rank_candidates llm jparse st).final_ranking.structured_output =
      .obj [("rankings", .arr (st.candidates.enum.map fun p =>
              .obj [("candidate_id", .str (candidateId p.1 p.2)),
                    ("rank", .num (Int.ofNat p.1 + 1)),
                    ("score", .num 0),
                    ("recommendation", .str "Unable to parse"),
                    ("key_strengths", .arr []),
                    ("key_weaknesses", .arr [])])),
            ("top_recommendation",
              match st.candidates.head? with
              | some c => .str (c.id.getD "candidate_0")
              | none => .null),
            ("summary", .str "Error parsing structured output")]
    ∧ (rank_candidates llm jparse st).final_ranking.detailed_report = m1.render
    ∧ (rank_candidates llm jparse st).message.name = "FinalRanker" := by
  refine ⟨?_, ?_, rfl⟩ <;>
    simp [rank_candidates, rankBody, h1, h2, h3, fallbackStructure, fallbackRanking]

/-- C2 witness: a concrete run whose model replies are not JSON yields
the fallback structure for one candidate. -/
theorem fallback_on_json_parse_failure_witness :
    (rank_candidates llmOkFixed jparseFail
        (initialState "j" [cResumeOnly])).final_ranking.structured_output =
      .obj [("rankings", .arr ([cResumeOnly].enum.map fun p =>
              .obj [("candidate_id", .str (candidateId p.1 p.2)),
                    ("rank", .num (Int.ofNat p.1 + 1)),
                    ("score", .num 0),
                    ("recommendation", .str "Unable to parse"),
                    ("key_strengths", .arr []),
                    ("key_weaknesses", .arr [])])),
            ("top_recommendation",
              match [cResumeOnly].head? with
              | some c => .str (c.id.getD "candidate_0")
              | none => .null),
            ("summary", .str "Error parsing structured output")]
    ∧ (rank_candidates llmOkFixed jparseFail
        (initialState "j" [cResumeOnly])).final_ranking.detailed_report =
      LlmMsg.render ⟨"analysis text", "extra"⟩
    ∧ (rank_candidates llmOkFixed jparseFail
        (initialState "j" [cResumeOnly])).message.name = "FinalRanker" :=
  fallback_on_json_parse_failure llmOkFixed jparseFail (initialState "j" [cResumeOnly])
    ⟨"analysis text", "extra"⟩ ⟨"analysis text", "extra"⟩
    "Expecting value: line 1 column 1 (char 0)" rfl rfl rfl

/-- C7: the final-rank step never raises: its normal result always
carries a FinalRanker message; when the body fails (in particular when
the free-text model call fails) the failure is caught and converted
into an error-shaped FinalRanking returned normally. -/
theorem final_rank_step_never_raises :
    (∀ (llm : LlmOracle) (jparse : JParseOracle) (st : CandidateState),
      (rank_candidates llm jparse st).message.name = "FinalRanker")
    ∧ (∀ (llm : LlmOracle) (jparse : JParseOracle) (st : CandidateState) (e : String),
      rankBody llm jparse st = .error e →
      rank_candidates llm jparse st =
        ⟨⟨"FinalRanker", "Final Ranker: Error - " ++ e⟩,
         ⟨"Error generating ranking: " ++ e, .obj [("error", .str e)]⟩⟩)
    ∧ (∀ (llm : LlmOracle) (jparse : JParseOracle) (st : CandidateState) (e : String),
      llm (finalRankPrompt st.job_offer (allCandidatesText st)) = .error e →
      rankBody llm jparse st = .error e) := by
  refine ⟨fun llm jparse st => rfl, ?_, ?_⟩
  · intro llm jparse st e h
    simp [rank_candidates, h]
  · intro llm jparse st e h
    simp [rankBody, h]

/-- C7 witness: with a model client that fails every call, the step
returns the error-shaped ranking normally. -/
theorem final_rank_step_never_raises_witness :
    rank_candidates llmFail jparseFail (initialState "j" [cResumeOnly]) =
      ⟨⟨"FinalRanker", "Final Ranker: Error - " ++ "model offline"⟩,
       ⟨"Error generating ranking: " ++ "model offline",
        .obj [("error", .str "model offline")]⟩⟩ :=
  final_rank_step_never_raises.2.1 llmFail jparseFail
    (initialState "j" [cResumeOnly]) "model offline" rfl

/-- A filesystem with one two-page file whose second page fails
extraction. -/
def fsPartial : FsOracle := fun p =>
  if p = "doc.pdf" then some (.ok ⟨[.ok "page one text", .error "bad page"]⟩) else none

/-- C6 counterexample: a file with a failing page still returns the
remaining pages' text with no failure signalled — refuting the claim
that a page-level extraction failure is never silently merged away. -/
theorem parse_pdf_partial_text_counterexample :
    fsPartial "doc.pdf" = some (.ok ⟨[.ok "page one text", .error "bad page"]⟩)
    ∧ hasFailingPage ⟨[.ok "page one text", .error "bad page"]⟩ = true
    ∧ parse_pdf fsPartial "doc.pdf" = .ok "page one text" := by
  refine ⟨by simp [fsPartial], rfl, ?_⟩
  simp only [parse_pdf, fsPartial, extractedPageTexts, isBlank]
  rfl

/-- C6 amended: `parse_pdf` either returns text or raises, with file
not found as a distinguished error kind and reader failures as generic
errors; but page-level extraction failures are not signalled — failing
(and all-blank) pages are skipped and the text of the remaining pages
is returned. -/
theorem parse_pdf_behaviour (fs : FsOracle) (p : String) :
    (fs p = none → parse_pdf fs p = .error (.notFound ("PDF file not found: " ++ p)))
    ∧ (∀ e, fs p = some (.error e) →
        parse_pdf fs p = .error (.other ("Error parsing PDF: " ++ e)))
    ∧ (∀ f, fs p = some (.ok f) →
        parse_pdf fs p = .ok (String.intercalate "\n\n" (extractedPageTexts f.pages))) := by
  refine ⟨?_, ?_, ?_⟩
  · intro h; simp [parse_pdf, h]
  · intro e h; simp [parse_pdf, h]
  · intro f h; simp [parse_pdf, h]

/-- C6 amended witness: a missing path raises the distinguished
file-not-found error; the partial file returns the surviving text. -/
theorem parse_pdf_behaviour_witness :
    parse_pdf fsNone "x.pdf" = .error (.notFound ("PDF file not found: " ++ "x.pdf"))
    ∧ parse_pdf fsPartial "doc.pdf" =
        .ok (String.intercalate "\n\n"
          (extractedPageTexts [.ok "page one text", .error "bad page"])) :=
  ⟨(parse_pdf_behaviour fsNone "x.pdf").1 rfl,
   (parse_pdf_behaviour fsPartial "doc.pdf").2.2
     ⟨[.ok "page one text", .error "bad page"]⟩ (by simp [fsPartial])⟩

/-- C8: `scrape_linkedin` never raises: input that does not parse as an
absolute URL (a scheme and a network location) is returned unchanged;
an absolute URL is fetched through the loader restricted to the fixed
structural class filter; a fetch failure is encoded as an
error-prefixed string result. -/
theorem scrape_linkedin_behaviour (up : UrlOracle) (web : WebOracle) (s : String) :
    ((up s).scheme = "" ∨ (up s).netloc = "" → scrape_linkedin up web s = s)
    ∧ (∀ e, (up s).scheme ≠ "" → (up s).netloc ≠ "" → web s linkedinClasses = .error e →
        scrape_linkedin up web s = "Error accessing LinkedIn profile: " ++ e)
    ∧ (∀ docs, (up s).scheme ≠ "" → (up s).netloc ≠ "" → web s linkedinClasses = .ok docs →
        scrape_linkedin up web s =
          if docs.isEmpty then "" else String.intercalate "\n\n" docs) := by
  refine ⟨?_, ?_, ?_⟩
  · intro h
    rcases h with h | h <;> simp [scrape_linkedin, h]
  · intro e h1 h2 h
    simp [scrape_linkedin, h1, h2, h]
  · intro docs h1 h2 h
    simp [scrape_linkedin, h1, h2, h]

/-- C8 witness: plain text passes through unchanged; a failing fetch of
an absolute URL becomes an error-prefixed string. -/
theorem scrape_linkedin_behaviour_witness :
    scrape_linkedin (fun _ => ⟨"", ""⟩) (fun _ _ => .error "offline") "plain profile text"
      = "plain profile text"
    ∧ scrape_linkedin (fun _ => ⟨"https", "example.com"⟩) (fun _ _ => .error "offline")
        "https://example.com/in/x"
      = "Error accessing LinkedIn profile: " ++ "offline" :=
  ⟨(scrape_linkedin_behaviour (fun _ => ⟨"", ""⟩) (fun _ _ => .error "offline")
      "plain profile text").1 (Or.inl rfl),
   (scrape_linkedin_behaviour (fun _ => ⟨"https", "example.com"⟩)
      (fun _ _ => .error "offline") "https://example.com/in/x").2.1 "offline"
     (by decide) (by decide) rfl⟩

/-- A filesystem whose every file opens with no pages, so extraction
yields empty text. -/
def fsEmptyPdf : FsOracle := fun _ => some (.ok ⟨[]⟩)

/-- C3 counterexample: for a candidate whose resume exists but whose
extraction yields empty content, the resume step makes a model call and
records the model reply — not a sentinel — so the empty-content
sentinel rule does not hold for the resume step. -/
theorem resume_empty_extraction_calls_model :
    parse_pdf fsEmptyPdf "resume.pdf" = .ok ""
    ∧ (resumeOne (parse_pdf fsEmptyPdf) llmOkFixed cResumeOnly).2 = [resumePrompt ""]
    ∧ (resumeOne (parse_pdf fsEmptyPdf) llmOkFixed cResumeOnly).1
        = .msg ⟨"analysis text", "extra"⟩ := by
  refine ⟨rfl, rfl, rfl⟩

/-- C3 amended: absent required input yields a distinct sentinel with
no model call in every step; the cover-letter step additionally records
distinct sentinels for a missing file and for empty extracted content
(no model call); the resume step records a distinct error string for a
missing resume file (no model call) — though it does call the model on
empty extracted content — and no case aborts the step. The sentinels
for the distinct causes are pairwise different strings. -/
theorem missing_inputs_distinct_sentinels :
    (∀ (pdfP : String → Except PdfErr String) (llm : LlmOracle) (c : Candidate),
      c.resume_path = none →
      resumeOne pdfP llm c = (.str "No resume provided", []))
    ∧ (∀ (fs : FsOracle) (llm : LlmOracle) (c : Candidate) (p : String),
      c.resume_path = some p → p ≠ "" → fs p = none →
      resumeOne (parse_pdf fs) llm c =
        (.str ("Error analyzing resume: " ++ ("PDF file not found: " ++ p)), []))
    ∧ (∀ (pdfP : String → Except PdfErr String) (llm : LlmOracle) (c : Candidate),
      c.cover_letter_path = none →
      coverOne pdfP llm c = (.str "No cover letter provided (optional)", []))
    ∧ (∀ (fs : FsOracle) (llm : LlmOracle) (c : Candidate) (p : String),
      c.cover_letter_path = some p → p ≠ "" → fs p = none →
      coverOne (parse_pdf fs) llm c = (.str "Cover letter file not found", []))
    ∧ (∀ (pdfP : String → Except PdfErr String) (llm : LlmOracle) (c : Candidate)
        (p t : String),
      c.cover_letter_path = some p → p ≠ "" → pdfP p = .ok t → isBlank t = true →
      coverOne pdfP llm c = (.str "Cover letter file is empty", []))
    ∧ (∀ p : String,
      "No resume provided" ≠ "Error analyzing resume: " ++ ("PDF file not found: " ++ p))
    ∧ ("No cover letter provided (optional)" ≠ "Cover letter file not found"
        ∧ "No cover letter provided (optional)" ≠ "Cover letter file is empty"
        ∧ "Cover letter file not found" ≠ "Cover letter file is empty") := by
  refine ⟨?_, ?_, ?_, ?_, ?_, ?_, by decide⟩
  · intro pdfP llm c h
    simp [resumeOne, h]
  · intro fs llm c p hp hne hfs
    simp [resumeOne, hp, hne, parse_pdf, hfs, PdfErr.str]
  · intro pdfP llm c h
    simp [coverOne, h]
  · intro fs llm c p hp hne hfs
    simp [coverOne, hp, hne, parse_pdf, hfs]
  · intro pdfP llm c p t hp hne hpdf hblank
    simp [coverOne, hp, hne, hpdf, hblank]
  · intro p h
    have hl := congrArg String.length h
    rw [String.length_append, String.length_append] at hl
    have h1 : ("No resume provided" : String).length = 18 := rfl
    have h2 : ("Error analyzing resume: " : String).length = 24 := rfl
    have h3 : ("PDF file not found: " : String).length = 20 := rfl
    omega

/-- C3 amended witness: concrete candidates exercising the no-path and
missing-file causes for resume and cover letter. -/
theorem missing_inputs_distinct_sentinels_witness :
    resumeOne (parse_pdf fsNone) llmFail cBob = (.str "No resume provided", [])
    ∧ resumeOne (parse_pdf fsNone) llmFail cResumeOnly =
        (.str ("Error analyzing resume: " ++ ("PDF file not found: " ++ "resume.pdf")), [])
    ∧ coverOne (parse_pdf fsNone) llmFail cBob =
        (.str "No cover letter provided (optional)", [])
    ∧ coverOne (parse_pdf fsNone) llmFail cAlice = (.str "Cover letter file not found", [])
    ∧ coverOne (parse_pdf fsEmptyPdf) llmFail cAlice =
        (.str "Cover letter file is empty", []) :=
  ⟨missing_inputs_distinct_sentinels.1 (parse_pdf fsNone) llmFail cBob rfl,
   missing_inputs_distinct_sentinels.2.1 fsNone llmFail cResumeOnly "resume.pdf"
     rfl (by decide) rfl,
   missing_inputs_distinct_sentinels.2.2.1 (parse_pdf fsNone) llmFail cBob rfl,
   missing_inputs_distinct_sentinels.2.2.2.1 fsNone llmFail cAlice "alice_cl.pdf"
     rfl (by decide) rfl,
   missing_inputs_distinct_sentinels.2.2.2.2.1 (parse_pdf fsEmptyPdf) llmFail cAlice
     "alice_cl.pdf" "" rfl (by decide) rfl rfl⟩

/-- C10: on model success the job-match step stores the reply's text
content as a string, while the resume, LinkedIn and cover-letter steps
store the raw reply object; string entries in the resume map arise only
as the sentinel or as error text; and whenever the final-rank step
completes normally (the JSON text fails to parse, yielding the
fallback dict, or parses to a dict) it stores the str()-rendering of
the reply object as the detailed report — whereas a successfully
parsed non-dict raises AttributeError at the summary's `.get` call and
the outer handler stores the error report instead. -/
theorem stored_result_shapes :
    (∀ (llm : LlmOracle) (jo : String) (ra la ca : AnalysisMap) (cid : String) (m : LlmMsg),
      llm (jobMatchPrompt jo (analysisText ra cid "No resume analysis")
        (analysisText la cid "No LinkedIn analysis")
        (analysisText ca cid "No cover letter analysis")) = .ok m →
      (jobMatchOne llm jo ra la ca cid).1 = .str m.content)
    ∧ (∀ (pdfP : String → Except PdfErr String) (llm : LlmOracle) (c : Candidate)
        (p t : String) (m : LlmMsg),
      c.resume_path = some p → p ≠ "" → pdfP p = .ok t → llm (resumePrompt t) = .ok m →
      (resumeOne pdfP llm c).1 = .msg m)
    ∧ (∀ (scrape : String → String) (llm : LlmOracle) (c : Candidate) (u : String)
        (m : LlmMsg),
      c.linkedin_url = some u → u ≠ "" → scrape u ≠ "" →
      startsWithStr (scrape u) "Error" = false →
      llm (linkedinPrompt (scrape u)) = .ok m →
      (linkedinOne scrape llm c).1 = .msg m)
    ∧ (∀ (pdfP : String → Except PdfErr String) (llm : LlmOracle) (c : Candidate)
        (p t : String) (m : LlmMsg),
      c.cover_letter_path = some p → p ≠ "" → pdfP p = .ok t → isBlank t = false →
      llm (coverLetterPrompt t) = .ok m →
      (coverOne pdfP llm c).1 = .msg m)
    ∧ (∀ (llm : LlmOracle) (jparse : JParseOracle) (st : CandidateState) (m1 m2 : LlmMsg),
      llm (finalRankPrompt st.job_offer (allCandidatesText st)) = .ok m1 →
      llm (jsonExtractPrompt m1.render) = .ok m2 →
      (∀ e, jparse (stripFences m2.render) = .error e →
        (rank_candidates llm jparse st).final_ranking.detailed_report = m1.render)
      ∧ (∀ fields, jparse (stripFences m2.render) = .ok (.obj fields) →
        (rank_candidates llm jparse st).final_ranking.detailed_report = m1.render))
    ∧ (∀ (llm : LlmOracle) (jparse : JParseOracle) (st : CandidateState) (m1 m2 : LlmMsg)
        (j : Json),
      llm (finalRankPrompt st.job_offer (allCandidatesText st)) = .ok m1 →
      llm (jsonExtractPrompt m1.render) = .ok m2 →
      jparse (stripFences m2.render) = .ok j →
      (∀ fields, j ≠ .obj fields) →
      rank_candidates llm jparse st =
        ⟨⟨"FinalRanker", "Final Ranker: Error - "
            ++ ("'" ++ j.pyType ++ "' object has no attribute 'get'")⟩,
         ⟨"Error generating ranking: "
            ++ ("'" ++ j.pyType ++ "' object has no attribute 'get'"),
          .obj [("error",
            .str ("'" ++ j.pyType ++ "' object has no attribute 'get'"))]⟩⟩)
    ∧ (∀ (pdfP : String → Except PdfErr String) (llm : LlmOracle) (c : Candidate)
        (s : String),
      (resumeOne pdfP llm c).1 = .str s →
      s = "No resume provided" ∨ ∃ e, s = "Error analyzing resume: " ++ e) := by
  refine ⟨?_, ?_, ?_, ?_, ?_, ?_, ?_⟩
  · intro llm jo ra la ca cid m h
    simp [jobMatchOne, h]
  · intro pdfP llm c p t m hp hne hpdf hllm
    simp [resumeOne, hp, hne, hpdf, hllm]
  · intro scrape llm c u m hu hne hscr hpre hllm
    simp [linkedinOne, hu, hne, hscr, hpre, hllm]
  · intro pdfP llm c p t m hp hne hpdf hblank hllm
    simp [coverOne, hp, hne, hpdf, hblank, hllm]
  · intro llm jparse st m1 m2 h1 h2
    refine ⟨?_, ?_⟩
    · intro e h3
      simp [rank_candidates, rankBody, h1, h2, h3, fallbackStructure]
    · intro fields h3
      simp [rank_candidates, rankBody, h1, h2, h3]
  · intro llm jparse st m1 m2 j h1 h2 h3 hobj
    cases j with
    | obj fields => exact absurd rfl (hobj fields)
    | null => simp [rank_candidates, rankBody, h1, h2, h3, Json.pyType]
    | bool b => simp [rank_candidates, rankBody, h1, h2, h3, Json.pyType]
    | num n => simp [rank_candidates, rankBody, h1, h2, h3, Json.pyType]
    | str s => simp [rank_candidates, rankBody, h1, h2, h3, Json.pyType]
    | arr xs => simp [rank_candidates, rankBody, h1, h2, h3, Json.pyType]
  · intro pdfP llm c s h
    cases hrp : c.resume_path with
    | none =>
      left
      rw [resumeOne, hrp] at h
      simp at h
      exact h.symm
    | some p =>
      by_cases hp : p = ""
      · left
        rw [resumeOne, hrp] at h
        simp [hp] at h
        exact h.symm
      · cases hpdf : pdfP p with
        | error e =>
          right
          refine ⟨e.str, ?_⟩
          rw [resumeOne, hrp] at h
          simp [hp, hpdf] at h
          exact h.symm
        | ok t =>
          cases hllm : llm (resumePrompt t) with
          | ok m =>
            rw [resumeOne, hrp] at h
            simp [hp, hpdf, hllm] at h
          | error e =>
            right
            refine ⟨e, ?_⟩
            rw [resumeOne, hrp] at h
            simp [hp, hpdf, hllm] at h
            exact h.symm

/-- C10 witness: a successful job-match call stores the bare content
string; a successful resume call stores the raw reply object; a
parse-failing run stores str(reply) as the detailed report; a run whose
JSON parses to a list ends in the AttributeError-shaped error
ranking. -/
theorem stored_result_shapes_witness :
    (jobMatchOne llmOkFixed "offer" [] [] [] "a").1 = .str "analysis text"
    ∧ (resumeOne (parse_pdf fsEmptyPdf) llmOkFixed cAlice).1
        = .msg ⟨"analysis text", "extra"⟩
    ∧ (rank_candidates llmOkFixed jparseFail
        (initialState "j" [cResumeOnly])).final_ranking.detailed_report
        = LlmMsg.render ⟨"analysis text", "extra"⟩
    ∧ rank_candidates llmOkFixed (fun _ => .ok (.arr []))
        (initialState "j" [cResumeOnly]) =
      ⟨⟨"FinalRanker", "Final Ranker: Error - "
          ++ ("'" ++ "list" ++ "' object has no attribute 'get'")⟩,
       ⟨"Error generating ranking: "
          ++ ("'" ++ "list" ++ "' object has no attribute 'get'"),
        .obj [("error",
          .str ("'" ++ "list" ++ "' object has no attribute 'get'"))]⟩⟩ :=
  ⟨stored_result_shapes.1 llmOkFixed "offer" [] [] [] "a"
     ⟨"analysis text", "extra"⟩ rfl,
   stored_result_shapes.2.1 (parse_pdf fsEmptyPdf) llmOkFixed cAlice "alice.pdf" ""
     ⟨"analysis text", "extra"⟩ rfl (by decide) rfl rfl,
   (stored_result_shapes.2.2.2.2.1 llmOkFixed jparseFail
     (initialState "j" [cResumeOnly]) ⟨"analysis text", "extra"⟩
     ⟨"analysis text", "extra"⟩ rfl rfl).1
     "Expecting value: line 1 column 1 (char 0)" rfl,
   stored_result_shapes.2.2.2.2.2.1 llmOkFixed (fun _ => .ok (.arr []))
     (initialState "j" [cResumeOnly]) ⟨"analysis text", "extra"⟩
     ⟨"analysis text", "extra"⟩ (.arr []) rfl rfl rfl
     (by intro fields h; simp at h)⟩

end HR







